import Mathlib

/-!
Verification development for the salsa incremental computation engine's
cycle-handling test suite (`tests/cycles.rs` and
`salsa-2022-tests/tests/cycles.rs`).

The repository snapshot contains the two test dialects and an example, but
not the engine sources themselves.  The engine (revision clock, input
table, memo store, active-query stack, revalidation and cycle detection)
is therefore modelled here from the specification, with the behavior at
the test configurations pinned by the outcomes the in-repository tests
assert.  The query universe, query bodies, recovery functions and the
concrete scenario set-ups are translated directly from the test sources.
-/

namespace Salsa

/-- The queries declared by both cycle test suites, in declaration order
(`memoized_a`, `memoized_b`, `volatile_a`, `volatile_b`, `cycle_a`,
`cycle_b`, `cycle_c`).  The three `*_invokes` input slots are modelled
separately as inputs. -/
inductive QName : Type
  | memoizedA
  | memoizedB
  | volatileA
  | volatileB
  | cycleA
  | cycleB
  | cycleC
  deriving DecidableEq, Repr, Fintype

/-- Numeric query id in declaration order; the canonical participant
ordering sorts by this id. -/
def QName.qid : QName → Nat
  | .memoizedA => 0
  | .memoizedB => 1
  | .volatileA => 2
  | .volatileB => 3
  | .cycleA => 4
  | .cycleB => 5
  | .cycleC => 6

/-- The base query name rendered as in the source (`fn memoized_a`, ...). -/
def QName.baseName : QName → String
  | .memoizedA => "memoized_a"
  | .memoizedB => "memoized_b"
  | .volatileA => "volatile_a"
  | .volatileB => "volatile_b"
  | .cycleA => "cycle_a"
  | .cycleB => "cycle_b"
  | .cycleC => "cycle_c"

/-- `enum CycleQuery` from both test files: how each of the queries
`cycle_a`/`cycle_b`/`cycle_c` is configured to continue. -/
inductive CycleQuery : Type
  | none
  | A
  | B
  | C
  | AthenC
  deriving DecidableEq, Repr, Fintype

/-- `salsa::Durability` (LOW, MEDIUM, HIGH). -/
inductive Durability : Type
  | low
  | medium
  | high
  deriving DecidableEq, Repr

/-- Rank used for the `min` over contributing edges. -/
def Durability.rank : Durability → Nat
  | .low => 0
  | .medium => 1
  | .high => 2

/-- Minimum of two durabilities. -/
def Durability.min (d1 d2 : Durability) : Durability :=
  if d1.rank ≤ d2.rank then d1 else d2

/-- The three input slots `a_invokes`, `b_invokes`, `c_invokes`. -/
inductive Slot : Type
  | slotA
  | slotB
  | slotC
  deriving DecidableEq, Repr

/-- Query result values as they occur in the tests: the unit value
returned by `memoized_*`/`volatile_*`, and `Result<(), Error>` returned
by `cycle_*`, where `Error { cycle: Vec<String> }` carries the cycle
participants (kept here as query names, rendered to strings at the
reporting boundary). -/
inductive Val : Type
  | unit
  | okU
  | errC (ps : List QName)
  deriving DecidableEq, Repr

/-- Modelled from the spec: a dependency-edge target — one of the three
input slots, another query, or the untracked-read sentinel recorded by
`report_untracked_read`. -/
inductive DepTarget : Type
  | input (s : Slot)
  | query (q : QName)
  | untracked
  deriving DecidableEq, Repr

/-- Modelled from the spec: a recorded edge `(target, R_changed of the
target at the time of the read)`. -/
structure Edge : Type where
  target : DepTarget
  storedRev : Nat
  deriving DecidableEq, Repr

/-- Modelled from the spec (§3 Memo Entry): `{value, deps, R_verified,
R_changed, durability}`. -/
structure Memo : Type where
  value : Val
  deps : List Edge
  rVerified : Nat
  rChanged : Nat
  dur : Durability
  deriving DecidableEq, Repr

/-- Modelled from the spec (§3 Input Entry): `(value, durability, R_set)`;
`value = none` models a slot the driver has not set yet. -/
structure InputSlot : Type where
  value : Option CycleQuery
  dur : Durability
  rSet : Nat
  deriving DecidableEq, Repr

/-- Modelled from the spec (§4.1 Revision Clock): `R_now` and the
per-durability last-changed revisions `R_changed[d]`. -/
structure Clock : Type where
  rNow : Nat
  chLow : Nat
  chMed : Nat
  chHigh : Nat
  deriving DecidableEq, Repr

/-- Modelled from the spec (§3/§4.4): one active-query stack frame,
carrying the query, its accumulated edge list and the running minimum
durability of its reads. -/
structure Frame : Type where
  q : QName
  edges : List Edge
  minDur : Durability
  deriving DecidableEq, Repr

/-- Observable events: a body execution, a detected cycle (with its
canonical participant list), and an invoked cycle-recovery function
(with the list it received). -/
inductive Event : Type
  | execBody (q : QName)
  | detect (ps : List QName)
  | fallbackInvoked (q : QName) (ps : List QName)
  deriving DecidableEq, Repr

/-- The per-query memo table (one key per query in these tests: `()` in
the group dialect, the single interned input `0` in the jar dialect). -/
structure Memos : Type where
  ma : Option Memo
  mb : Option Memo
  va : Option Memo
  vb : Option Memo
  ca : Option Memo
  cb : Option Memo
  cc : Option Memo
  deriving DecidableEq, Repr

def Memos.get (m : Memos) : QName → Option Memo
  | .memoizedA => m.ma
  | .memoizedB => m.mb
  | .volatileA => m.va
  | .volatileB => m.vb
  | .cycleA => m.ca
  | .cycleB => m.cb
  | .cycleC => m.cc

def Memos.set (m : Memos) : QName → Option Memo → Memos
  | .memoizedA, v => { m with ma := v }
  | .memoizedB, v => { m with mb := v }
  | .volatileA, v => { m with va := v }
  | .volatileB, v => { m with vb := v }
  | .cycleA, v => { m with ca := v }
  | .cycleB, v => { m with cb := v }
  | .cycleC, v => { m with cc := v }

/-- Modelled from the spec (§2, §3): the whole runtime state — revision
clock, the three input slots, the memo store, the (thread-local)
active-query stack with its deepest frame at the head, and the log of
observable events. -/
structure St : Type where
  clock : Clock
  inA : InputSlot
  inB : InputSlot
  inC : InputSlot
  memos : Memos
  stack : List Frame
  log : List Event
  deriving DecidableEq, Repr

/-- The initial runtime: `R_now = 0`, nothing changed, no inputs set,
empty memo store, empty stack. -/
def St.init : St :=
  { clock := ⟨0, 0, 0, 0⟩
    inA := ⟨none, .high, 0⟩
    inB := ⟨none, .high, 0⟩
    inC := ⟨none, .high, 0⟩
    memos := ⟨none, none, none, none, none, none, none⟩
    stack := []
    log := [] }

def St.slot (st : St) : Slot → InputSlot
  | .slotA => st.inA
  | .slotB => st.inB
  | .slotC => st.inC

def St.setSlot (st : St) : Slot → InputSlot → St
  | .slotA, v => { st with inA := v }
  | .slotB, v => { st with inB := v }
  | .slotC, v => { st with inC := v }

/-- Modelled from the spec (§4.2 Input Table): `set(k, v, d)` compares
`v` to the stored value; if equal, a no-op; otherwise it bumps the clock
with durability `d` and updates the slot's `R_set` and durability. -/
def St.setInput (st : St) (s : Slot) (v : CycleQuery) (d : Durability) : St :=
  if (st.slot s).value = some v then st
  else
    let r := st.clock.rNow + 1
    let clock :=
      { st.clock with
        rNow := r
        chLow := if d = .low then r else st.clock.chLow
        chMed := if d = .medium then r else st.clock.chMed
        chHigh := if d = .high then r else st.clock.chHigh }
    ({ st with clock := clock }).setSlot s ⟨some v, d, r⟩

/-- Record an edge and a durability contribution on the deepest active
frame (the stack head), as the Active-Query Stack does for every read. -/
def St.record (st : St) (e : Edge) (d : Durability) : St :=
  match st.stack with
  | [] => st
  | f :: rest =>
      { st with stack := { f with edges := f.edges ++ [e], minDur := f.minDur.min d } :: rest }

/-- Reading an input slot records an edge `(slot, R_set)` with the
slot's durability and returns the stored value (`CycleQuery.none` for a
never-set slot, which no modelled scenario reads). -/
def St.readInput (st : St) (s : Slot) : St × CycleQuery :=
  let sl := st.slot s
  (st.record ⟨.input s, sl.rSet⟩ sl.dur, sl.value.getD .none)

/-- `report_untracked_read`: records the untracked sentinel edge at the
current revision with LOW durability. -/
def St.reportUntracked (st : St) : St :=
  st.record ⟨.untracked, st.clock.rNow⟩ .low

def St.logEv (st : St) (e : Event) : St :=
  { st with log := st.log ++ [e] }

def St.push (st : St) (q : QName) : St :=
  { st with stack := ⟨q, [], .high⟩ :: st.stack }

def St.pop (st : St) : St :=
  { st with stack := st.stack.tail }

/-- Which queries declare a cycle-recovery fallback
(`#[salsa::cycle(recover_a)]` on `cycle_a`, `recover_b` on `cycle_b`;
every other query panics). -/
def hasFallback : QName → Bool
  | .cycleA => true
  | .cycleB => true
  | _ => false

/-- `recover_a` / `recover_b` from the tests: the fallback value is
`Err(Error { cycle: cycle.all_participants(db) })`. -/
def fallbackValue (_q : QName) (ps : List QName) : Val :=
  .errC ps

/-- The order on queries underlying the canonical participant list:
comparison of the numeric query ids. -/
def qidLe (a b : QName) : Prop :=
  a.qid ≤ b.qid

instance : DecidableRel qidLe := fun a b => Nat.decLe a.qid b.qid

instance : IsTotal QName qidLe := ⟨fun a b => Nat.le_total a.qid b.qid⟩

instance : IsTrans QName qidLe := ⟨fun _ _ _ h1 h2 => Nat.le_trans h1 h2⟩

/-- Query ids are distinct, so the id order is antisymmetric. -/
theorem qid_injective : ∀ a b : QName, a.qid = b.qid → a = b := by decide

instance : IsAntisymm QName qidLe :=
  ⟨fun a b h1 h2 => qid_injective a b (Nat.le_antisymm h1 h2)⟩

/-- The canonical participant order: sorted by query id
(`(query id, key id)`; all keys coincide in these single-key tests). -/
def sortParticipants (l : List QName) : List QName :=
  l.insertionSort qidLe

/-- Outcome of a fetch: a normal value, a raised `Cycle` failure carrying
the canonical participant list together with the frame (if any) at which
the unwinding stops and turns into that frame's fallback value, or fuel
exhaustion of the interpreter. -/
inductive Res (α : Type) : Type
  | ok (a : α)
  | raised (ps : List QName) (stopAt : Option QName)
  | fuel
  deriving DecidableEq, Repr

/-- The participants of a cycle discovered when `q` is re-entered: the
contiguous suffix of active frames from the conflicting frame for `q`
down to the deepest frame (stack head first, i.e. deepest first). -/
def cycleParticipants (st : St) (q : QName) : List Frame :=
  st.stack.take (st.stack.findIdx (fun f => f.q = q) + 1)

/-- The canonical (reported) participant list of that cycle. -/
def canonOf (st : St) (q : QName) : List QName :=
  sortParticipants ((cycleParticipants st q).map (·.q))

/-- The frames that get unwound for recovery: scanning the participants
from the conflicting (outermost) frame inward, the leading participants
without a fallback are skipped (they keep executing); everything from
the first participant with a fallback onward is unwound. -/
def markedFrames (st : St) (q : QName) : List Frame :=
  (cycleParticipants st q).reverse.dropWhile (fun f => !hasFallback f.q)

/-- The frame at which the raised cycle stops and turns into a fallback
value: the first participant with a fallback, scanning from the
conflicting frame inward; `none` when no participant has one. -/
def stopOf (st : St) (q : QName) : Option QName :=
  (markedFrames st q).head?.map (·.q)

/-- The cycle's external dependencies: every edge recorded by any
participant whose target is not itself a cycle participant. -/
def cycleExtDeps (st : St) (q : QName) : List Edge :=
  ((cycleParticipants st q).reverse.map (·.edges)).flatten.filter
    (fun e =>
      match e.target with
      | .query q' => !((cycleParticipants st q).map (·.q)).contains q'
      | _ => true)

/-- The minimum durability observed across all cycle participants. -/
def cycleMinDur (st : St) (q : QName) : Durability :=
  (cycleParticipants st q).foldl (fun d f => d.min f.minDur) .high

/-- Install one unwound frame's fallback: a participant that declares a
fallback has it invoked with the canonical list `canon` and the result
installed as its memo (depending on the cycle's external edges `deps`
with the cycle-wide minimum durability `minD`, changed and verified at
the current revision `r`); other unwound frames are just discarded. -/
def installFallback (canon : List QName) (deps : List Edge) (minD : Durability)
    (r : Nat) (acc : St) (f : Frame) : St :=
  if hasFallback f.q then
    { acc.logEv (.fallbackInvoked f.q canon) with
      memos := acc.memos.set f.q (some ⟨fallbackValue f.q canon, deps, r, r, minD⟩) }
  else acc

/-- Modelled from the spec (§4.6) and pinned by the tests: cycle
handling at the moment a fetch hits a query already on the stack.  The
detection is logged with the canonical list; the marked frames are
unwound deepest-last, installing fallback memos; the raised failure
carries the canonical list and stops at the first fallback participant
(whose caller resumes with the fallback value), or propagates out of
every frame when no participant has a fallback. -/
def cycleHandle (st : St) (q : QName) : St × Res Val :=
  let canon := canonOf st q
  let stop := stopOf st q
  let st' :=
    (markedFrames st q).reverse.foldl
      (installFallback canon (cycleExtDeps st q) (cycleMinDur st q) st.clock.rNow)
      (st.logEv (.detect canon))
  (st', .raised canon stop)

/-- Does the durability short-circuit apply (spec §4.5 step 3): no input
of durability `≤ entry.durability` changed since `R_verified`. -/
def duraShortcut (st : St) (m : Memo) : Bool :=
  (st.clock.chLow ≤ m.rVerified) &&
    (m.dur.rank < 1 || st.clock.chMed ≤ m.rVerified) &&
    (m.dur.rank < 2 || st.clock.chHigh ≤ m.rVerified)

/-- The `R_changed` of a query's memo (0 when absent), used when the
caller records the edge after a read. -/
def memoRCh (st : St) (q : QName) : Nat :=
  ((st.memos.get q).map (·.rChanged)).getD 0

/-- The durability of a query's memo (HIGH when absent), folded into the
caller's running minimum. -/
def memoDur (st : St) (q : QName) : Durability :=
  ((st.memos.get q).map (·.dur)).getD .high

mutual

/-- Modelled from the spec (§4.4/§4.5 `fetch_value`): consult the memo,
re-validate or (re-)execute, with the frame pushed first so that a
re-entrant fetch of the same query triggers cycle handling. -/
def fetchQ : Nat → St → QName → St × Res Val
  | 0, st, _ => (st, .fuel)
  | fu + 1, st, q =>
    if (st.stack.map (·.q)).contains q then cycleHandle st q
    else
      let st := st.push q
      match st.memos.get q with
      | some m =>
          if m.rVerified = st.clock.rNow then (st.pop, .ok m.value)
          else if duraShortcut st m then
            let st :=
              { st with memos := st.memos.set q (some { m with rVerified := st.clock.rNow }) }
            (st.pop, .ok m.value)
          else
            match walkDeps fu st m.deps with
            | (st, .ok false) =>
                let st :=
                  { st with
                    memos := st.memos.set q (some { m with rVerified := st.clock.rNow }) }
                (st.pop, .ok m.value)
            | (st, .ok true) => execQ fu st q (some m)
            | (st, .raised ps stop) =>
                if stop = some q then
                  (st.pop, .ok (((st.memos.get q).map (·.value)).getD .unit))
                else (st.pop, .raised ps stop)
            | (st, .fuel) => (st.pop, .fuel)
      | none => execQ fu st q none

/-- Execute the query body (frame already pushed, reset), install the
resulting memo per spec §4.5 step 5, or recover at this frame when the
raised cycle stops here. -/
def execQ : Nat → St → QName → Option Memo → St × Res Val
  | 0, st, _, _ => (st, .fuel)
  | fu + 1, st, q, oldM =>
    let st := { st with stack := ⟨q, [], .high⟩ :: st.stack.tail }
    let st := st.logEv (.execBody q)
    match runBody fu st q with
    | (st, .ok v) =>
        match st.stack with
        | [] => (st, .fuel)
        | f :: _ =>
            let rCh :=
              match oldM with
              | some m => if m.value = v then m.rChanged else st.clock.rNow
              | none => st.clock.rNow
            let st :=
              { st with
                memos := st.memos.set q
                  (some ⟨v, f.edges, st.clock.rNow, rCh, f.minDur⟩) }
            (st.pop, .ok v)
    | (st, .raised ps stop) =>
        if stop = some q then
          (st.pop, .ok (((st.memos.get q).map (·.value)).getD .unit))
        else (st.pop, .raised ps stop)
    | (st, .fuel) => (st.pop, .fuel)

/-- Modelled from the spec (§4.5 steps 1–4): walk the recorded edges in
order; the untracked sentinel always reports changed; an input edge
reports changed iff its `R_set` exceeds the stored revision; a query
edge recurses into `maybe_changed_after`. -/
def walkDeps : Nat → St → List Edge → St × Res Bool
  | 0, st, _ => (st, .fuel)
  | _, st, [] => (st, .ok false)
  | fu + 1, st, e :: rest =>
    match e.target with
    | .untracked => (st, .ok true)
    | .input s =>
        if (st.slot s).rSet > e.storedRev then (st, .ok true)
        else walkDeps fu st rest
    | .query q' =>
        match maybeChangedQ fu st q' e.storedRev with
        | (st, .ok true) => (st, .ok true)
        | (st, .ok false) => walkDeps fu st rest
        | (st, .raised ps stop) => (st, .raised ps stop)
        | (st, .fuel) => (st, .fuel)

/-- Modelled from the spec (§4.5 `maybe_changed_after(Q, k, R)`). -/
def maybeChangedQ : Nat → St → QName → Nat → St × Res Bool
  | 0, st, _, _ => (st, .fuel)
  | fu + 1, st, q, storedRev =>
    if (st.stack.map (·.q)).contains q then
      match cycleHandle st q with
      | (st, .raised ps stop) => (st, .raised ps stop)
      | (st, _) => (st, .fuel)
    else
      match st.memos.get q with
      | none => (st, .ok true)
      | some m =>
          if m.rVerified = st.clock.rNow then (st, .ok (m.rChanged > storedRev))
          else
            let st := st.push q
            if duraShortcut st m then
              let st :=
                { st with
                  memos := st.memos.set q (some { m with rVerified := st.clock.rNow }) }
              (st.pop, .ok (m.rChanged > storedRev))
            else
              match walkDeps fu st m.deps with
              | (st, .ok false) =>
                  let st :=
                    { st with
                      memos := st.memos.set q (some { m with rVerified := st.clock.rNow }) }
                  (st.pop, .ok (m.rChanged > storedRev))
              | (st, .ok true) =>
                  match execQ fu st q (some m) with
                  | (st, .ok _) =>
                      (st, .ok ((((st.memos.get q).map (·.rChanged)).getD 0) > storedRev))
                  | (st, .raised ps stop) => (st, .raised ps stop)
                  | (st, .fuel) => (st, .fuel)
              | (st, .raised ps stop) =>
                  if stop = some q then
                    (st.pop, .ok ((((st.memos.get q).map (·.rChanged)).getD 0) > storedRev))
                  else (st.pop, .raised ps stop)
              | (st, .fuel) => (st.pop, .fuel)

/-- The query bodies, translated from the test sources: `memoized_a`
calls `memoized_b` (and vice versa), `volatile_a`/`volatile_b` report an
untracked read then call each other, and `cycle_a`/`cycle_b`/`cycle_c`
read their input slot and dispatch through `CycleQuery::invoke`. -/
def runBody : Nat → St → QName → St × Res Val
  | 0, st, _ => (st, .fuel)
  | fu + 1, st, q =>
    match q with
    | .memoizedA =>
        match fetchQ fu st .memoizedB with
        | (st, .ok v) => (st.record ⟨.query .memoizedB, memoRCh st .memoizedB⟩
            (memoDur st .memoizedB), .ok v)
        | (st, r) => (st, r)
    | .memoizedB =>
        match fetchQ fu st .memoizedA with
        | (st, .ok v) => (st.record ⟨.query .memoizedA, memoRCh st .memoizedA⟩
            (memoDur st .memoizedA), .ok v)
        | (st, r) => (st, r)
    | .volatileA =>
        let st := st.reportUntracked
        match fetchQ fu st .volatileB with
        | (st, .ok v) => (st.record ⟨.query .volatileB, memoRCh st .volatileB⟩
            (memoDur st .volatileB), .ok v)
        | (st, r) => (st, r)
    | .volatileB =>
        let st := st.reportUntracked
        match fetchQ fu st .volatileA with
        | (st, .ok v) => (st.record ⟨.query .volatileA, memoRCh st .volatileA⟩
            (memoDur st .volatileA), .ok v)
        | (st, r) => (st, r)
    | .cycleA =>
        let (st, cq) := st.readInput .slotA
        invokeCQ fu st cq
    | .cycleB =>
        let (st, cq) := st.readInput .slotB
        invokeCQ fu st cq
    | .cycleC =>
        let (st, cq) := st.readInput .slotC
        invokeCQ fu st cq

/-- `CycleQuery::invoke` from the test sources. -/
def invokeCQ : Nat → St → CycleQuery → St × Res Val
  | 0, st, _ => (st, .fuel)
  | fu + 1, st, cq =>
    match cq with
    | .none => (st, .ok .okU)
    | .A => callCycle fu st .cycleA
    | .B => callCycle fu st .cycleB
    | .C => callCycle fu st .cycleC
    | .AthenC =>
        match callCycle fu st .cycleA with
        | (st, .ok _) => callCycle fu st .cycleC
        | (st, r) => (st, r)

/-- A nested call to one of the `cycle_*` queries: fetch it and, on a
normal return, record the edge on the caller's frame. -/
def callCycle : Nat → St → QName → St × Res Val
  | 0, st, _ => (st, .fuel)
  | fu + 1, st, q =>
    match fetchQ fu st q with
    | (st, .ok v) => (st.record ⟨.query q, memoRCh st q⟩ (memoDur st q), .ok v)
    | (st, r) => (st, r)

end

/-- Interpreter fuel; ample for every modelled scenario. -/
def FUEL : Nat := 60

/-- Top-level query call, as the test driver performs it (empty stack). -/
def query (st : St) (q : QName) : St × Res Val :=
  fetchQ FUEL st q

/-- `set_x_invokes(v)` (plain setter: LOW durability, as in the source). -/
def setIn (st : St) (s : Slot) (v : CycleQuery) : St :=
  st.setInput s v .low

/-- `set_x_invokes_with_durability(v, d)`. -/
def setInD (st : St) (s : Slot) (v : CycleQuery) (d : Durability) : St :=
  st.setInput s v d

/-- Group-dialect rendering of a participant identity: the key is `()`
so `cycle_a` renders as `"cycle_a(())"`. -/
def renderGroup (q : QName) : String :=
  q.baseName ++ "(())"

/-- Jar-dialect rendering of a participant identity: the single input
renders by its id `0`, so `cycle_a` renders as `"cycle_a(0)"`. -/
def renderJar (q : QName) : String :=
  q.baseName ++ "(0)"

/-! ## Scenario set-ups and observables, translated from the tests -/

/-- Does a fetch outcome escape as a raised `Cycle` failure (a panic
carrying `salsa::Cycle`), as opposed to returning a value? -/
def isRaised : Res Val → Bool
  | .raised _ _ => true
  | _ => false

/-- The participant lists of all cycle detections recorded in a run's
log, in detection order. -/
def detects (st : St) : List (List QName) :=
  st.log.filterMap (fun e =>
    match e with
    | .detect ps => some ps
    | _ => none)

/-- The participant lists passed to `q`'s recovery function, in
invocation order (empty when `q`'s recovery was never invoked). -/
def fallbacksFor (st : St) (q : QName) : List (List QName) :=
  st.log.filterMap (fun e =>
    match e with
    | .fallbackInvoked p ps => if p = q then some ps else none
    | _ => none)

/-- `cycle_cycle` / `cycle_revalidate` / `cycle_deterministic_order` /
`cycle_disappears` configuration: `a_invokes = B`, `b_invokes = A`. -/
def dbAB : St := setIn (setIn St.init .slotA .B) .slotB .A

/-- `cycle_mixed_1` configuration: `A → B`, `B → C`, `C → B`. -/
def dbMixed1 : St := setIn (setIn (setIn St.init .slotA .B) .slotB .C) .slotC .B

/-- `cycle_mixed_2` configuration: `A → B`, `B → C`, `C → A`. -/
def dbMixed2 : St := setIn (setIn (setIn St.init .slotA .B) .slotB .C) .slotC .A

/-- `cycle_recovery_set_but_not_participating` configuration:
`A → C`, `C → C`. -/
def dbNonPart : St := setIn (setIn St.init .slotA .C) .slotC .C

/-- `cycle_multiple` configuration, group dialect: `A → B`,
`B → A then C`, `C → B`. -/
def dbMultiple : St := setIn (setIn (setIn St.init .slotA .B) .slotB .AthenC) .slotC .B

/-- `cycle_multiple` configuration, jar dialect: `A → B`,
`B → A then C`, `C → A`. -/
def dbMultipleJar : St := setIn (setIn (setIn St.init .slotA .B) .slotB .AthenC) .slotC .A

/-- `cycle_disappears_durability` configuration: `a_invokes = B` at LOW,
`b_invokes = A` at HIGH. -/
def dbDura : St := setInD (setInD St.init .slotA .B .low) .slotB .A .high

/-- `cycle_appears` initial configuration: `a_invokes = B`,
`b_invokes = None`. -/
def dbAppears : St := setIn (setIn St.init .slotA .B) .slotB .none

/-- A runtime state with `cycle_c` as the only active frame, used to
exercise the cycle detector at a concrete stack. -/
def stackCC : St := { St.init with stack := [⟨.cycleC, [], .high⟩] }

/-- `db.cycle_a()` on the `A ↔ B` configuration. -/
def runAB_A : St × Res Val := query dbAB .cycleA

/-- `db.cycle_b()` on a fresh `A ↔ B` configuration. -/
def runAB_B : St × Res Val := query dbAB .cycleB

/-- `cycle_appears`: first call, acyclic configuration. -/
def appearsRun1 : St × Res Val := query dbAppears .cycleA

/-- `cycle_appears`: second call after `set_b_invokes(A)`. -/
def appearsRun2 : St × Res Val := query (setIn appearsRun1.1 .slotB .A) .cycleA

/-- `cycle_disappears`: second call after `set_b_invokes(None)`. -/
def disappearsRun2 : St × Res Val := query (setIn runAB_A.1 .slotB .none) .cycleA

/-- `cycle_disappears_durability`: the first call, `db.cycle_a()`. -/
def duraRun1 : St × Res Val := query dbDura .cycleA

/-- `cycle_disappears_durability`: `db.cycle_b()` after
`set_a_invokes_with_durability(None, LOW)`. -/
def duraRun2 : St × Res Val := query (setInD duraRun1.1 .slotA .none .low) .cycleB

/-- `cycle_multiple`, group dialect: the three successive entry points
`db.cycle_c()`, `db.cycle_b()`, `db.cycle_a()`. -/
def mulRunC : St × Res Val := query dbMultiple .cycleC

def mulRunB : St × Res Val := query mulRunC.1 .cycleB

def mulRunA : St × Res Val := query mulRunB.1 .cycleA

/-- `cycle_multiple`, jar dialect (`c_invokes = A`): the three entries. -/
def mulJarRunC : St × Res Val := query dbMultipleJar .cycleC

def mulJarRunB : St × Res Val := query mulJarRunC.1 .cycleB

def mulJarRunA : St × Res Val := query mulJarRunB.1 .cycleA

/-! ## Shared structural lemmas about the cycle detector -/

/-- The detector's outcome is always a raised failure carrying the
canonical participant list, stopping at the first fallback participant
(or at no frame when there is none). -/
theorem cycleHandle_snd (st : St) (q : QName) :
    (cycleHandle st q).2 = .raised (canonOf st q) (stopOf st q) := rfl

/-- The raised failure propagates out of every frame (stops nowhere)
exactly when no cycle participant declares a fallback. -/
theorem stopOf_none_iff (st : St) (q : QName) :
    stopOf st q = none ↔ ∀ f ∈ cycleParticipants st q, hasFallback f.q = false := by
  simp [stopOf, markedFrames, Option.map_eq_none', List.head?_eq_none_iff,
    List.dropWhile_eq_nil_iff, List.mem_reverse, Bool.not_eq_true']

/-- Unwinding the marked frames invokes exactly the fallbacks of the
unwound participants that declare one, every invocation observing the
identical canonical participant list `canon`. -/
theorem installFallback_log (canon : List QName) (deps : List Edge)
    (minD : Durability) (r : Nat) :
    ∀ (fs : List Frame) (st : St),
      (fs.foldl (installFallback canon deps minD r) st).log =
        st.log ++ (fs.filter (fun f => hasFallback f.q)).map
          (fun f => Event.fallbackInvoked f.q canon) := by
  intro fs
  induction fs with
  | nil => intro st; simp
  | cons f rest ih =>
      intro st
      by_cases h : hasFallback f.q = true
      · simp [installFallback, h, ih, St.logEv, List.filter_cons]
      · simp [installFallback, h, ih, List.filter_cons]

/-- A fetch that finds a memo already verified at the current revision
returns its value and leaves the state untouched: no body execution, no
log entry, no memo update. -/
theorem fetchQ_memo_hit (fu : Nat) (st : St) (q : QName) (m : Memo)
    (hstk : st.stack = []) (hm : st.memos.get q = some m)
    (hv : m.rVerified = st.clock.rNow) :
    fetchQ (fu + 1) st q = (st, .ok m.value) := by
  simp only [fetchQ, hstk, St.push, St.pop, hm, hv]
  simp [hstk, hm, hv]
  rw [← hstk]

/-- `set` with a value equal to the stored one is a no-op: the state —
clock included — is unchanged. -/
theorem setInput_noop (st : St) (s : Slot) (v : CycleQuery) (d : Durability)
    (h : (st.slot s).value = some v) : st.setInput s v d = st := by
  simp [St.setInput, h]

/-- The canonical participant order is a function of the participant
set alone: permuting the input does not change the sorted output. -/
theorem sortParticipants_perm_eq (l1 l2 : List QName) (h : l1.Perm l2) :
    sortParticipants l1 = sortParticipants l2 :=
  List.eq_of_perm_of_sorted
    ((List.perm_insertionSort _ l1).trans (h.trans (List.perm_insertionSort _ l2).symm))
    (List.sorted_insertionSort _ l1) (List.sorted_insertionSort _ l2)

/-- Canonical participant lists are sorted by query id. -/
theorem sortParticipants_sorted (l : List QName) :
    List.Sorted qidLe (sortParticipants l) :=
  List.sorted_insertionSort _ l

/-! ## Claim theorems -/


/-- Claim C1, counterexample: in the mixed-recovery configurations
`A → B → C → B` (entered at `C`) and `A → B → C → A` (entered at `A`),
where `cycle_c` has no recovery but `cycle_a` and `cycle_b` do, the
top-level call does not raise a Cycle failure: it returns the fallback
error value carrying the participant list, exactly as the tests
`cycle_mixed_1` and `cycle_mixed_2` assert. -/
theorem c1_counterexample :
    (query dbMixed1 .cycleC).2 = .ok (.errC [.cycleB, .cycleC]) ∧
    isRaised (query dbMixed1 .cycleC).2 = false ∧
    (query dbMixed2 .cycleA).2 = .ok (.errC [.cycleA, .cycleB, .cycleC]) ∧
    isRaised (query dbMixed2 .cycleA).2 = false := by decide

/-- Claim C1 (amended): a detected cycle escapes as a raised Cycle
failure iff no participant has a fallback; otherwise the failure stops
at the first fallback participant (scanning from the conflicting frame
inward) and every unwound participant with a fallback has it invoked
with the identical canonical participant ordering; in the all-fallback
`A ↔ B` cycle both fallbacks are invoked with the same list, and in the
mixed configurations the top-level call returns the fallback error
value rather than raising. -/
theorem c1_cycle_recovery_resolution :
    (∀ (st : St) (q : QName), (cycleHandle st q).2 = .raised (canonOf st q) (stopOf st q)) ∧
    (∀ (st : St) (q : QName),
      stopOf st q = none ↔ ∀ f ∈ cycleParticipants st q, hasFallback f.q = false) ∧
    (∀ (canon : List QName) (deps : List Edge) (minD : Durability) (r : Nat)
        (fs : List Frame) (st : St),
      (fs.foldl (installFallback canon deps minD r) st).log =
        st.log ++ (fs.filter (fun f => hasFallback f.q)).map
          (fun f => Event.fallbackInvoked f.q canon)) ∧
    runAB_A.1.log =
      [.execBody .cycleA, .execBody .cycleB, .detect [.cycleA, .cycleB],
       .fallbackInvoked .cycleB [.cycleA, .cycleB],
       .fallbackInvoked .cycleA [.cycleA, .cycleB]] ∧
    (query dbMixed1 .cycleC).2 = .ok (.errC [.cycleB, .cycleC]) ∧
    fallbacksFor (query dbMixed1 .cycleC).1 .cycleB = [[.cycleB, .cycleC]] ∧
    (query dbMixed2 .cycleA).2 = .ok (.errC [.cycleA, .cycleB, .cycleC]) ∧
    (query dbNonPart .cycleA).2 = .raised [.cycleC] none :=
  ⟨cycleHandle_snd, stopOf_none_iff, installFallback_log, by decide, by decide,
   by decide, by decide, by decide⟩

/-- Claim C1, witness: the recovery-resolution theorem applied at the
concrete one-frame stack holding only `cycle_c`, discharging the
no-fallback condition there. -/
theorem c1_witness : stopOf stackCC .cycleC = none :=
  (c1_cycle_recovery_resolution.2.1 stackCC .cycleC).mpr (by decide)

/-- Claim C2: participant-set exactness — in the `A → C`, `C → C`
configuration, `query(A)` raises a non-recovered Cycle whose
participant list is exactly `["cycle_c(())"]`, and `cycle_a`'s fallback
is not invoked even though `cycle_a` is on the call stack above the
cycle. -/
theorem c2_participant_set_exactness :
    (query dbNonPart .cycleA).2 = .raised [.cycleC] none ∧
    [QName.cycleC].map renderGroup = ["cycle_c(())"] ∧
    detects (query dbNonPart .cycleA).1 = [[.cycleC]] ∧
    fallbacksFor (query dbNonPart .cycleA).1 .cycleA = [] := by decide

/-- Claim C3: cycle determinism and canonical ordering — entering the
`A ↔ B` cycle from either participant yields the identical participant
list, rendered stably; canonical lists are sorted by query id, are
invariant under permutation of the participants (so every caller
observing the same cycle sees the same list), and the detector always
reports exactly the sorted participant list. -/
theorem c3_cycle_determinism :
    (runAB_A.2 = .ok (.errC [.cycleA, .cycleB]) ∧
     runAB_B.2 = .ok (.errC [.cycleA, .cycleB]) ∧
     [QName.cycleA, .cycleB].map renderGroup = ["cycle_a(())", "cycle_b(())"]) ∧
    (∀ l : List QName, List.Sorted qidLe (sortParticipants l)) ∧
    (∀ l1 l2 : List QName, l1.Perm l2 → sortParticipants l1 = sortParticipants l2) ∧
    (∀ (st : St) (q : QName),
      (cycleHandle st q).2 =
        .raised (sortParticipants ((cycleParticipants st q).map (fun f => f.q)))
          (stopOf st q)) :=
  ⟨by decide, sortParticipants_sorted, sortParticipants_perm_eq, fun _ _ => rfl⟩

/-- Claim C3, witness: canonical-order invariance applied to the
concrete permutation `[cycle_b, cycle_a] ~ [cycle_a, cycle_b]`. -/
theorem c3_witness :
    sortParticipants [.cycleB, .cycleA] = sortParticipants [.cycleA, .cycleB] :=
  c3_cycle_determinism.2.2.1 [.cycleB, .cycleA] [.cycleA, .cycleB]
    (List.Perm.swap QName.cycleA QName.cycleB [])

/-- Claim C4: durability taint on cycle participants — after
`a_invokes := B` at LOW and `b_invokes := A` at HIGH, `query(A)` fails
with the cycle and `cycle_b`'s memo carries the minimum durability over
the cycle (LOW); after `a_invokes := None` at LOW, `query(B)` succeeds
instead of reporting the stale cycle. -/
theorem c4_durability_taint :
    duraRun1.2 = .ok (.errC [.cycleA, .cycleB]) ∧
    (duraRun1.1.memos.get .cycleB).map (fun m => m.dur) = some .low ∧
    (duraRun1.1.memos.get .cycleB).map (fun m => m.value) =
      some (.errC [.cycleA, .cycleB]) ∧
    duraRun2.2 = .ok .okU := by decide

/-- Claim C5: dialect equivalence — for every cycle scenario present in
both suites the two dialects produce the same Ok/Err outcome and the
same underlying participant list, each dialect rendering an identity as
its own stable `q_name(key_debug)` string; in particular the two
`cycle_multiple` configurations (`c_invokes = B` in the group dialect,
`c_invokes = A` in the jar dialect) agree at all three entry points. -/
theorem c5_dialect_equivalence :
    ((query St.init .memoizedA).2 = .raised [.memoizedA, .memoizedB] none ∧
     [QName.memoizedA, .memoizedB].map renderGroup =
       ["memoized_a(())", "memoized_b(())"] ∧
     [QName.memoizedA, .memoizedB].map renderJar = ["memoized_a(0)", "memoized_b(0)"]) ∧
    ((query St.init .volatileA).2 = .raised [.volatileA, .volatileB] none ∧
     [QName.volatileA, .volatileB].map renderGroup =
       ["volatile_a(())", "volatile_b(())"] ∧
     [QName.volatileA, .volatileB].map renderJar = ["volatile_a(0)", "volatile_b(0)"]) ∧
    (runAB_A.2 = .ok (.errC [.cycleA, .cycleB]) ∧
     runAB_B.2 = .ok (.errC [.cycleA, .cycleB]) ∧
     [QName.cycleA, .cycleB].map renderGroup = ["cycle_a(())", "cycle_b(())"] ∧
     [QName.cycleA, .cycleB].map renderJar = ["cycle_a(0)", "cycle_b(0)"]) ∧
    (appearsRun1.2 = .ok .okU ∧ appearsRun2.2 = .ok (.errC [.cycleA, .cycleB]) ∧
     disappearsRun2.2 = .ok .okU) ∧
    ((query dbMixed1 .cycleC).2 = .ok (.errC [.cycleB, .cycleC]) ∧
     (query dbMixed2 .cycleA).2 = .ok (.errC [.cycleA, .cycleB, .cycleC])) ∧
    (mulRunA.2 = mulJarRunA.2 ∧ mulRunB.2 = mulJarRunB.2 ∧ mulRunC.2 = mulJarRunC.2 ∧
     mulRunA.2 = .ok (.errC [.cycleA, .cycleB])) ∧
    ((query dbNonPart .cycleA).2 = .raised [.cycleC] none ∧
     [QName.cycleC].map renderGroup = ["cycle_c(())"] ∧
     [QName.cycleC].map renderJar = ["cycle_c(0)"]) := by decide

/-- Claim C6: scenario S1 — with `A → B` and `B → A`, `query(A)` yields
a Cycle whose participants are exactly the two identities in order,
both when the participants are panic-mode (`memoized_a`/`memoized_b`,
where the Cycle is raised) and when both have fallbacks
(`cycle_a`/`cycle_b`, where the Cycle is returned as the fallback error
value). -/
theorem c6_s1_self_cycle :
    (query St.init .memoizedA).2 = .raised [.memoizedA, .memoizedB] none ∧
    [QName.memoizedA, .memoizedB].map renderGroup =
      ["memoized_a(())", "memoized_b(())"] ∧
    runAB_A.2 = .ok (.errC [.cycleA, .cycleB]) ∧
    [QName.cycleA, .cycleB].map renderGroup = ["cycle_a(())", "cycle_b(())"] := by decide

/-- Claim C7: scenario S5 — with `A → B`, `B → None`, `query(A)` is Ok;
after `B → A` (a new revision) it fails with the `A`,`B` cycle; and
from the cyclic configuration, after `B → None`, `query(A)` is Ok
again: a memoized cycle outcome is never returned after the inputs that
produced it changed. -/
theorem c7_cycle_tracks_revisions :
    appearsRun1.2 = .ok .okU ∧
    appearsRun2.2 = .ok (.errC [.cycleA, .cycleB]) ∧
    runAB_A.2 = .ok (.errC [.cycleA, .cycleB]) ∧
    disappearsRun2.2 = .ok .okU := by decide

/-- Claim C8: scenario S6 — `volatile_a` and `volatile_b` each report
an untracked read and call each other; `query(volatile_a)` raises a
Cycle with exactly those two participants and no recovery is invoked;
and the untracked-read sentinel edge always reports changed during
revalidation. -/
theorem c8_untracked_reads :
    ((query St.init .volatileA).2 = .raised [.volatileA, .volatileB] none ∧
     [QName.volatileA, .volatileB].map renderGroup =
       ["volatile_a(())", "volatile_b(())"] ∧
     fallbacksFor (query St.init .volatileA).1 .volatileA = [] ∧
     fallbacksFor (query St.init .volatileA).1 .volatileB = []) ∧
    (∀ (fu : Nat) (st : St) (r : Nat) (rest : List Edge),
      walkDeps (fu + 1) st (⟨.untracked, r⟩ :: rest) = (st, .ok true)) :=
  ⟨by decide, fun _ _ _ _ => rfl⟩

/-- Claim C9: memoization with equal-value set as no-op — a `set` with
a value equal to the stored one leaves the entire state (clock
included) unchanged; a fetch of a memo verified at the current revision
returns its value without executing anything; and concretely, after
`query(A)` errs on the `A ↔ B` cycle, re-setting `b_invokes` to its
current value is a state no-op and the second `query(A)` returns the
same error leaving the state untouched (no body re-execution). -/
theorem c9_memoization_noop_set :
    (∀ (st : St) (s : Slot) (v : CycleQuery) (d : Durability),
      (st.slot s).value = some v → st.setInput s v d = st) ∧
    (∀ (fu : Nat) (st : St) (q : QName) (m : Memo), st.stack = [] →
      st.memos.get q = some m → m.rVerified = st.clock.rNow →
      fetchQ (fu + 1) st q = (st, .ok m.value)) ∧
    setIn runAB_A.1 .slotB .A = runAB_A.1 ∧
    query runAB_A.1 .cycleA = (runAB_A.1, runAB_A.2) :=
  ⟨setInput_noop, fetchQ_memo_hit, by decide, by decide⟩

/-- Claim C9, witness: the no-op-set part applied to the configured
`A ↔ B` database re-setting `b_invokes := A`, and the memo-hit part
applied to the state after `query(A)` with its concrete `cycle_a`
memo. -/
theorem c9_witness :
    dbAB.setInput .slotB .A .low = dbAB ∧
    fetchQ 60 runAB_A.1 .cycleA = (runAB_A.1, .ok (.errC [.cycleA, .cycleB])) :=
  ⟨c9_memoization_noop_set.1 dbAB .slotB .A .low (by decide),
   c9_memoization_noop_set.2.1 59 runAB_A.1 .cycleA
     ⟨.errC [.cycleA, .cycleB],
      [⟨.input .slotA, 1⟩, ⟨.input .slotB, 2⟩], 2, 2, .low⟩
     (by decide) (by decide) (by decide)⟩

/-- Claim C10: recovery-then-continue reports only the inner cycle — in
the two-loop configuration (`A ↔ B` and `B → C → B`), every entry point
returns the recovered error listing exactly `cycle_a` and `cycle_b`;
only one cycle is ever detected, `cycle_c` never appears as a
participant, and the jar-dialect variant agrees. -/
theorem c10_only_inner_cycle :
    mulRunC.2 = .ok (.errC [.cycleA, .cycleB]) ∧
    mulRunB.2 = .ok (.errC [.cycleA, .cycleB]) ∧
    mulRunA.2 = .ok (.errC [.cycleA, .cycleB]) ∧
    detects mulRunA.1 = [[.cycleA, .cycleB]] ∧
    fallbacksFor mulRunA.1 .cycleC = [] ∧
    mulJarRunC.2 = .ok (.errC [.cycleA, .cycleB]) ∧
    mulJarRunB.2 = .ok (.errC [.cycleA, .cycleB]) ∧
    mulJarRunA.2 = .ok (.errC [.cycleA, .cycleB]) ∧
    detects mulJarRunA.1 = [[.cycleA, .cycleB]] := by decide

end Salsa
